import Mathlib

/-!
Shallow embedding of the asynchronous job orchestrator of
backend-react/main.py: job store, worker pipeline, idempotency ledger,
nonce/signature validation, webhook signing and the status endpoint.
External collaborators (hashlib sha256/md5, hmac, the image engine, the
zip reader, JSON serialisation of the status payload) are passed in as
function parameters; everything else is translated line by line from the
source.
-/

namespace BrewChrome

/-- Job lifecycle states stored in the `status` field of a job record. -/
inductive JobStatus
  | queued
  | processing
  | completed
  | failed
  | expired
deriving DecidableEq, BEq, Repr

/-- Rendering of a status to the string stored in the Python dict. -/
def statusStr : JobStatus → String
  | .queued => "queued"
  | .processing => "processing"
  | .completed => "completed"
  | .failed => "failed"
  | .expired => "expired"

/-- One per-item entry of a job's `results` list. -/
structure ItemResult where
  filename : String
  palette : List (List Nat)
  social_image : Option String
deriving DecidableEq, Repr

/-- Structured failure descriptor stored in a failed job's `error` field. -/
structure JobError where
  error_code : String
  message : String
deriving DecidableEq, Repr

/-- The type-specific `data` payload of a job: decoded-archive reference or
url list, mirroring the dict stored by `create_job`. -/
inductive JobData
  | zipData (zip_data : String)
  | urlList (urls : List String)
deriving DecidableEq, Repr

/-- A job record, one entry of the in-memory `JOBS` table. Python `None`
fields are `Option.none`; time.time() values are modelled as integer
seconds. -/
structure Job where
  id : String
  type : String
  status : JobStatus
  progress : Int
  data : Option JobData
  callback_url : Option String
  created_at : Int
  started_at : Option Int
  finished_at : Option Int
  ttl_h : Int
  results : Option (List ItemResult)
  error : Option JobError
  request_id : String
  idempotency_key : Option String
  download_url : Option String
deriving DecidableEq, Repr

/-- Outcome of `create_job`: the returned id, the updated `JOBS` table and
the ids submitted to the worker pool (`EXECUTOR.submit`). -/
structure CreateOutcome where
  job_id : String
  store : List (String × Job)
  submitted : List String
deriving DecidableEq, Repr

/-- The job record `create_job` inserts: queued, progress 0, and
`ttl_h = min(ttl_h, 168)` (a 7-day upper clamp with no lower bound). -/
def newJobRecord (now : Int) (new_id : String) (request_id : String)
    (job_type : String) (data : JobData) (callback_url : Option String)
    (ttl_h : Int) (idempotency_key : Option String) : Job :=
  { id := new_id
    type := job_type
    status := .queued
    progress := 0
    data := some data
    callback_url := callback_url
    created_at := now
    started_at := none
    finished_at := none
    ttl_h := min ttl_h 168
    results := none
    error := none
    request_id := request_id
    idempotency_key := idempotency_key
    download_url := none }

/-- `create_job` from main.py: inserts a queued record and submits the job
id to the executor. -/
def create_job (now : Int) (new_id : String) (request_id : String)
    (job_type : String) (data : JobData) (callback_url : Option String)
    (ttl_h : Int) (idempotency_key : Option String)
    (jobs : List (String × Job)) : CreateOutcome :=
  let job := newJobRecord now new_id request_id job_type data callback_url
    ttl_h idempotency_key
  { job_id := new_id, store := (new_id, job) :: jobs, submitted := [new_id] }

/-- Whether the character list `l` starts with `sub`. -/
def listStartsWith : List Char → List Char → Bool
  | _, [] => true
  | [], _ => false
  | c :: cs, d :: ds => c == d && listStartsWith cs ds

/-- Whether `sub` occurs as a contiguous sublist of `l`. -/
def listHasInfix : List Char → List Char → Bool
  | [], sub => sub.isEmpty
  | l@(_ :: rest), sub => listStartsWith l sub || listHasInfix rest sub

/-- Python's `sub in s` substring test. -/
def containsSubstr (sub s : String) : Bool :=
  listHasInfix s.toList sub.toList

/-- Python's `s.startswith(p)`. -/
def strStartsWith (s p : String) : Bool :=
  listStartsWith s.toList p.toList

/-- Python's `s.endswith(p)`. -/
def strEndsWith (s p : String) : Bool :=
  listStartsWith s.toList.reverse p.toList.reverse

/-- Python's `s.lower()`. -/
def strToLower (s : String) : String :=
  String.mk (s.toList.map Char.toLower)

/-- The filter applied by `process_zip_file` to zip entry names: path
traversal protection plus the image-extension whitelist. -/
def isZipImageFile (file_name : String) : Bool :=
  if containsSubstr ".." file_name || strStartsWith file_name "/"
      || containsSubstr "\\" file_name then
    false
  else
    let l := strToLower file_name
    strEndsWith l ".jpg" || strEndsWith l ".jpeg" || strEndsWith l ".png"
      || strEndsWith l ".webp"

/-- Result of the external palette engine on one image: the raw palette and
the optional social preview. -/
structure EngineResult where
  raw_palette : List (List Nat)
  social_image : Option String
deriving DecidableEq, Repr

/-- Palette normalisation from main.py: keep only length-3 colour entries. -/
def normalizePalette (p : List (List Nat)) : List (List Nat) :=
  p.filter (fun c => c.length == 3)

/-- `process_zip_file` from main.py, from the point where the archive has
been decoded and opened. `entries` is the outcome of base64-decoding and
opening the archive (an external collaborator): its error cases are the
decode/size/BadZipFile messages; on success it gives the entry name list.
`processEntry` is the external engine run on one entry (`none` when the
entry fails and is skipped). -/
def process_zip_file (entries : Except String (List String))
    (processEntry : String → Option EngineResult) :
    Except String (List ItemResult) :=
  match entries with
  | .error e => .error e
  | .ok names =>
    let image_files := names.filter isZipImageFile
    if image_files.length > 50 then
      .error "Too many images: max 50 per ZIP"
    else if image_files.length = 0 then
      .error "No valid images found in ZIP"
    else
      let results := image_files.filterMap (fun n =>
        (processEntry n).map (fun r =>
          { filename := n
            palette := normalizePalette r.raw_palette
            social_image := r.social_image }))
      if results.length = 0 then
        .error "No images could be processed from ZIP"
      else
        .ok results

/-- Filename attached to a url result: last path component of the url, or
a positional fallback when it is empty. -/
def urlFilename (i : Nat) (url : String) : String :=
  let last := (url.splitOn "/").getLastD ""
  if last = "" then "url_" ++ toString (i + 1) else last

/-- The per-url loop of `process_job`: items whose fetch or processing
fails are skipped; successes are appended in input order. `fetchProcess`
stands for `fetch_url_internal` composed with `process_image`. -/
def urlResults (fetchProcess : String → Option EngineResult)
    (urls : List String) : List ItemResult :=
  urls.enum.filterMap (fun p =>
    (fetchProcess p.2).map (fun r =>
      { filename := urlFilename p.1 p.2
        palette := normalizePalette r.raw_palette
        social_image := r.social_image }))

/-- Progress percentage after `done` of `total` items,
`int(done / total * 100)` in the source. -/
def progressPct (done total : Nat) : Int :=
  (((done * 100) / total : Nat) : Int)

/-- State written at the start of `process_job`. -/
def processingState (t1 : Int) (job0 : Job) : Job :=
  { job0 with status := .processing, started_at := some t1 }

/-- The `download_url` generated for large result batches. -/
def downloadUrlFor (job_id : String) (results : List ItemResult) :
    Option String :=
  if results.length > 5 then
    some ("https://storage.googleapis.com/brewchrome/jobs/" ++ job_id
      ++ "/results.zip")
  else none

/-- Terminal state of a job that completed successfully. -/
def completedState (t2 : Int) (jobP : Job) (results : List ItemResult) :
    Job :=
  { jobP with
      status := .completed
      progress := 100
      finished_at := some t2
      results := some results
      download_url := downloadUrlFor jobP.id results }

/-- Terminal state of a job whose processing raised: the error code is
always PROCESSING_ERROR and the progress keeps its last value. -/
def failedState (t2 : Int) (jobP : Job) (msg : String) : Job :=
  { jobP with
      status := .failed
      finished_at := some t2
      error := some { error_code := "PROCESSING_ERROR", message := msg } }

/-- The sequence of intermediate states written by the per-item progress
loop: after item `i` the progress is `progressPct (i+1) total`, the status
still `processing`. -/
def progressStates (jobP : Job) (total : Nat) : List Job :=
  (List.range total).map (fun i =>
    { jobP with progress := progressPct (i + 1) total })

/-- The sequence of job states observable in the `JOBS` table while
`process_job` runs on a job, starting from the queued record: the
processing state, each progress update, and the terminal state. `t1` and
`t2` are the wall-clock times of the start and the finish. A job whose
type is neither batch type falls through both branches and completes with
empty results; a payload that does not match the type raises inside the
handler and the job fails (the modelled message abbreviates the Python
exception text). -/
def process_job_trace (t1 t2 : Int) (job0 : Job)
    (entries : Except String (List String))
    (processEntry : String → Option EngineResult)
    (fetchProcess : String → Option EngineResult) : List Job :=
  let jobP := processingState t1 job0
  if job0.type = "zip_batch" then
    match job0.data with
    | some (.zipData _) =>
      match process_zip_file entries processEntry with
      | .ok results =>
        job0 :: jobP ::
          (progressStates jobP results.length ++ [completedState t2 jobP results])
      | .error e => [job0, jobP, failedState t2 jobP e]
    | _ => [job0, jobP, failedState t2 jobP "zip_data"]
  else if job0.type = "url_batch" then
    match job0.data with
    | some (.urlList urls) =>
      job0 :: jobP ::
        (progressStates jobP urls.length
          ++ [completedState t2 jobP (urlResults fetchProcess urls)])
    | _ => [job0, jobP, failedState t2 jobP "urls"]
  else
    [job0, jobP, completedState t2 jobP []]

/-- The terminal job record after `process_job` finishes. -/
def process_job_outcome (t1 t2 : Int) (job0 : Job)
    (entries : Except String (List String))
    (processEntry : String → Option EngineResult)
    (fetchProcess : String → Option EngineResult) : Job :=
  (process_job_trace t1 t2 job0 entries processEntry fetchProcess).getLastD job0

/-- The status-payload dict built by `get_job_status` for a live job.
Fields that the source only adds for particular statuses are `Option`s. -/
structure StatusResponse where
  job_id : String
  status : String
  request_id : String
  created_at : Int
  expires_at : Int
  started_at : Option Int
  finished_at : Option Int
  progress : Option Int
  results : Option (List ItemResult)
  results_count : Option Nat
  download_url : Option String
  download_expires_at : Option Int
  error_code : Option String
  message : Option String
  user_message : Option String
deriving DecidableEq, Repr

/-- Body of an HTTP response from the status endpoint. -/
inductive RespBody
  | statusBody (r : StatusResponse)
  | errorBody (error_code : String) (user_message : String)
  | emptyBody
deriving DecidableEq, Repr

/-- An HTTP response together with the headers the endpoint sets. -/
structure HttpResp where
  status_code : Nat
  body : RespBody
  etag : Option String
  retry_after : Option String
  cache_control : Option String
deriving DecidableEq, Repr

/-- `make_error` from main.py, restricted to the fields the claims are
about (the metrics and logging side effects are dropped). -/
def make_error (status_code : Nat) (error_code : String)
    (user_message : String) : HttpResp :=
  { status_code := status_code
    body := .errorBody error_code user_message
    etag := none
    retry_after := none
    cache_control := none }

/-- The in-place mutation performed by the lazy-expiry branch of
`get_job_status`: status becomes expired, `results` and `download_url` are
cleared. No other field (in particular not `data`) is touched. -/
def expireJobRecord (job : Job) : Job :=
  { job with status := .expired, results := none, download_url := none }

/-- The Retry-After header set by the status endpoint for a status. -/
def retryAfterHint : JobStatus → Option String
  | .queued => some "2"
  | .processing => some "5"
  | _ => none

/-- The response dict built by `get_job_status` for a live job: base
fields, plus `progress` while processing, `results`/`results_count` and
the optional download fields when completed, and the flattened error
fields when failed. In the source a completed job always carries a results
list and a failed job always carries an error dict; the `getD` defaults
cover the unreachable `None` cases. -/
def build_status_response (now : Int) (job_id : String) (job : Job) :
    StatusResponse :=
  let expires_at := job.created_at + job.ttl_h * 3600
  let base : StatusResponse :=
    { job_id := job_id
      status := statusStr job.status
      request_id := job.request_id
      created_at := job.created_at
      expires_at := expires_at
      started_at := job.started_at
      finished_at := job.finished_at
      progress := none
      results := none
      results_count := none
      download_url := none
      download_expires_at := none
      error_code := none
      message := none
      user_message := none }
  match job.status with
  | .processing => { base with progress := some job.progress }
  | .completed =>
    let rs := job.results.getD []
    { base with
        results := some rs
        results_count := some rs.length
        download_url := job.download_url
        download_expires_at :=
          if job.download_url.isSome then some (now + 3600) else none }
  | .failed =>
    let e := job.error.getD { error_code := "", message := "" }
    { base with
        error_code := some e.error_code
        message := some e.message
        user_message := some ("Job failed: " ++ e.message) }
  | _ => base

/-- Replacement of the record stored under `job_id` in the `JOBS` table. -/
def updateJob (job_id : String) (job : Job) (jobs : List (String × Job)) :
    List (String × Job) :=
  jobs.map (fun p => if p.1 = job_id then (p.1, job) else p)

/-- `get_job_status` from main.py: lookup, lazy TTL expiry (mutating the
table), ETag computation and the conditional/full response. `etagOf`
stands for the external `md5(json.dumps(response, sort_keys=True))[:8]`
fingerprint of the response payload. Returns the response together with
the updated `JOBS` table. -/
def get_job_status (etagOf : StatusResponse → String) (now : Int)
    (if_none_match : Option String) (job_id : String)
    (jobs : List (String × Job)) : HttpResp × List (String × Job) :=
  match List.lookup job_id jobs with
  | none => (make_error 404 "JOB_NOT_FOUND" "Job not found", jobs)
  | some job =>
    let expires_at := job.created_at + job.ttl_h * 3600
    if now > expires_at then
      (make_error 404 "EXPIRED_JOB" "Job results have expired",
        updateJob job_id (expireJobRecord job) jobs)
    else
      let r := build_status_response now job_id job
      let etag := "\"" ++ etagOf r ++ "\""
      if if_none_match = some etag then
        ({ status_code := 304
           body := .emptyBody
           etag := some etag
           retry_after := retryAfterHint job.status
           cache_control := none }, jobs)
      else
        ({ status_code := 200
           body := .statusBody r
           etag := some etag
           retry_after := retryAfterHint job.status
           cache_control := some "no-store" }, jobs)

/-- Python truthiness of the optional Idempotency-Key header: absent or
empty string disables idempotency. -/
def keyPresent : Option String → Bool
  | none => false
  | some k => !(k = "")

/-- `check_idempotency` from main.py. `sha256hex` is the external body
digest. Returns `(existing_job_id?, conflict_code?)`. -/
def check_idempotency (sha256hex : String → String) (key : Option String)
    (body_data : String) (cache : List (String × String × String)) :
    Option String × Option String :=
  match key with
  | none => (none, none)
  | some k =>
    if k = "" then (none, none)
    else
      let body_hash := sha256hex body_data
      match List.lookup k cache with
      | some (cached_job_id, cached_hash) =>
        if cached_hash ≠ body_hash then (none, some "IDEMPOTENCY_VIOLATION")
        else (some cached_job_id, none)
      | none => (none, none)

/-- `store_idempotency` from main.py: record `key → (job_id, body_hash)`.
The new binding shadows any previous one, like a dict assignment. -/
def store_idempotency (sha256hex : String → String) (key : Option String)
    (job_id : String) (body_data : String)
    (cache : List (String × String × String)) :
    List (String × String × String) :=
  match key with
  | none => cache
  | some k =>
    if k = "" then cache
    else (k, job_id, sha256hex body_data) :: cache

/-- The shared mutable server state touched by `POST /jobs`: the
idempotency ledger, the `JOBS` table and the ids handed to the worker
pool. -/
structure ServerState where
  idem : List (String × String × String)
  jobs : List (String × Job)
  submitted : List String
deriving DecidableEq, Repr

/-- Outcome of a `POST /jobs` request: a 202 acceptance carrying
`job_id`, `status` and `eta_s`, or an error response. -/
inductive CreateResp
  | accepted (job_id : String) (status : String) (eta_s : Int)
  | rejected (status_code : Nat) (error_code : String)
deriving DecidableEq, Repr

/-- The parsed request body of `POST /jobs`, after the multipart/JSON
decoding that the source delegates to Flask: a zip payload, a url list, or
one of the two request-level validation failures. -/
inductive ParsedReq
  | zipReq (zip_data : String) (callback_url : Option String) (ttl_h : Int)
  | urlsReq (urls : List String) (callback_url : Option String) (ttl_h : Int)
  | noInput
  | invalidInput
deriving DecidableEq, Repr

/-- The `status` string reported when an existing job is returned for a
replayed idempotency key: the stored job's status, or "unknown". -/
def job_status_label (jobs : List (String × Job)) (job_id : String) :
    String :=
  match List.lookup job_id jobs with
  | some job => statusStr job.status
  | none => "unknown"

/-- `create_job_endpoint` from main.py: idempotency check on the raw body,
then body validation, job creation and submission, then the idempotency
store, in that order. `body_data` is the raw request body whose digest the
ledger records; `req` is its parsed form. -/
def create_job_endpoint (sha256hex : String → String) (now : Int)
    (new_id : String) (request_id : String) (key : Option String)
    (body_data : String) (req : ParsedReq) (st : ServerState) :
    CreateResp × ServerState :=
  let checked :=
    if keyPresent key then check_idempotency sha256hex key body_data st.idem
    else (none, none)
  match checked with
  | (_, some _) => (.rejected 409 "IDEMPOTENCY_VIOLATION", st)
  | (some existing_job_id, none) =>
    (.accepted existing_job_id (job_status_label st.jobs existing_job_id) 60,
      st)
  | (none, none) =>
    match req with
    | .noInput => (.rejected 400 "NO_INPUT", st)
    | .invalidInput => (.rejected 400 "INVALID_INPUT", st)
    | .urlsReq urls cb ttl =>
      if urls.length = 0 then (.rejected 400 "INVALID_INPUT", st)
      else
        let o := create_job now new_id request_id "url_batch"
          (.urlList urls) cb ttl key st.jobs
        let idem2 :=
          if keyPresent key then
            store_idempotency sha256hex key o.job_id body_data st.idem
          else st.idem
        (.accepted o.job_id "queued" (min (urls.length * 10 : Int) 900),
          { idem := idem2, jobs := o.store,
            submitted := st.submitted ++ o.submitted })
    | .zipReq z cb ttl =>
      let o := create_job now new_id request_id "zip_batch"
        (.zipData z) cb ttl key st.jobs
      let idem2 :=
        if keyPresent key then
          store_idempotency sha256hex key o.job_id body_data st.idem
        else st.idem
      (.accepted o.job_id "queued" 120,
        { idem := idem2, jobs := o.store,
          submitted := st.submitted ++ o.submitted })

/-- The ETA reported for a freshly created job, by request kind. -/
def etaFor : ParsedReq → Int
  | .zipReq _ _ _ => 120
  | .urlsReq urls _ _ => min (urls.length * 10 : Int) 900
  | _ => 0

/-- Program counter of one in-flight `POST /jobs` request, cut at the
points where the source releases a lock: after the idempotency check
(IDEMPOTENCY_LOCK), after the job insert (JOB_LOCK), and after the
idempotency store (IDEMPOTENCY_LOCK). -/
inductive ReqPC
  | atCheck
  | atCreate
  | atStore
  | finished (resp : CreateResp)
deriving DecidableEq, Repr

/-- The request-local data of one in-flight creation request. -/
structure ReqCtx where
  key : String
  body_data : String
  new_id : String
  request_id : String
  req : ParsedReq
deriving DecidableEq, Repr

/-- One atomic section of `create_job_endpoint` for a request bearing a
(nonempty) idempotency key, acting on the shared state. The three
sections mirror the source: check under the ledger lock, insert-and-submit
under the job lock, store under the ledger lock. -/
def reqStep (sha256hex : String → String) (now : Int) (ctx : ReqCtx)
    (pc : ReqPC) (st : ServerState) : ReqPC × ServerState :=
  match pc with
  | .finished r => (.finished r, st)
  | .atCheck =>
    match check_idempotency sha256hex (some ctx.key) ctx.body_data st.idem with
    | (_, some _) => (.finished (.rejected 409 "IDEMPOTENCY_VIOLATION"), st)
    | (some e, none) =>
      (.finished (.accepted e (job_status_label st.jobs e) 60), st)
    | (none, none) => (.atCreate, st)
  | .atCreate =>
    match ctx.req with
    | .noInput => (.finished (.rejected 400 "NO_INPUT"), st)
    | .invalidInput => (.finished (.rejected 400 "INVALID_INPUT"), st)
    | .urlsReq urls cb ttl =>
      if urls.length = 0 then
        (.finished (.rejected 400 "INVALID_INPUT"), st)
      else
        let o := create_job now ctx.new_id ctx.request_id "url_batch"
          (.urlList urls) cb ttl (some ctx.key) st.jobs
        (.atStore,
          { st with jobs := o.store, submitted := st.submitted ++ o.submitted })
    | .zipReq z cb ttl =>
      let o := create_job now ctx.new_id ctx.request_id "zip_batch"
        (.zipData z) cb ttl (some ctx.key) st.jobs
      (.atStore,
        { st with jobs := o.store, submitted := st.submitted ++ o.submitted })
  | .atStore =>
    (.finished (.accepted ctx.new_id "queued" (etaFor ctx.req)),
      { st with
          idem := store_idempotency sha256hex (some ctx.key) ctx.new_id
            ctx.body_data st.idem })

/-- Joint state of two concurrent creation requests over the shared
server state. -/
structure TwoReqState where
  pc1 : ReqPC
  pc2 : ReqPC
  shared : ServerState
deriving DecidableEq, Repr

/-- Execution of two concurrent requests under a given interleaving: each
schedule entry says which request runs its next atomic section. -/
def runSchedule (sha256hex : String → String) (now : Int)
    (c1 c2 : ReqCtx) : List Bool → TwoReqState → TwoReqState
  | [], s => s
  | b :: rest, s =>
    if b then
      let step := reqStep sha256hex now c2 s.pc2 s.shared
      runSchedule sha256hex now c1 c2 rest
        { s with pc2 := step.1, shared := step.2 }
    else
      let step := reqStep sha256hex now c1 s.pc1 s.shared
      runSchedule sha256hex now c1 c2 rest
        { s with pc1 := step.1, shared := step.2 }

/-- Value of an ASCII decimal digit. -/
def digitVal (c : Char) : Option Nat :=
  if 48 ≤ c.toNat ∧ c.toNat ≤ 57 then some (c.toNat - 48) else none

/-- Big-endian accumulation of decimal digits; `none` on a non-digit. -/
def parseDigitsAux : List Char → Nat → Option Nat
  | [], acc => some acc
  | c :: cs, acc =>
    match digitVal c with
    | some d => parseDigitsAux cs (acc * 10 + d)
    | none => none

/-- Parse a nonempty all-digit character list. -/
def parseDigits : List Char → Option Nat
  | [] => none
  | l => parseDigitsAux l 0

/-- Python's `int(s)` on a decimal string (optional leading minus),
`None` standing for the `ValueError` the caller catches. -/
def strToInt? (s : String) : Option Int :=
  match s.toList with
  | [] => none
  | '-' :: rest => (parseDigits rest).map (fun n => -(n : Int))
  | l => (parseDigits l).map (fun n => (n : Int))

/-- Outcome of `validate_request_signature`: success, or the error code
and message of the 401 rejection. -/
inductive SigResult
  | sigOk
  | sigErr (error_code : String) (message : String)
deriving DecidableEq, Repr

/-- The canonical message whose HMAC an inbound signed request must carry:
timestamp, method, path and the hex body digest, newline-separated. -/
def signed_message (timestamp : Int) (method path body_hash : String) :
    String :=
  toString timestamp ++ "\n" ++ method ++ "\n" ++ path ++ "\n" ++ body_hash

/-- `validate_request_signature` from main.py. `sha256hex` and
`hmac_sha256` are the external digest and MAC primitives; `now` is
`int(time.time())`. Returns the outcome together with the updated nonce
cache: note that the source inserts the nonce as soon as the nonce-reuse
check passes, before the signature itself is verified. -/
def validate_request_signature (sha256hex : String → String)
    (hmac_sha256 : String → String → String) (webhook_secret : String)
    (now : Int) (timestamp_header signature_header : Option String)
    (nonce : String) (method path body : String)
    (nonce_cache : List (String × Int)) : SigResult × List (String × Int) :=
  match timestamp_header, signature_header with
  | none, _ =>
    (.sigErr "MISSING_SIGNATURE" "Missing authentication headers", nonce_cache)
  | _, none =>
    (.sigErr "MISSING_SIGNATURE" "Missing authentication headers", nonce_cache)
  | some ts_str, some sig =>
    if ts_str = "" || sig = "" then
      (.sigErr "MISSING_SIGNATURE" "Missing authentication headers",
        nonce_cache)
    else
      match strToInt? ts_str with
      | none =>
        (.sigErr "INVALID_TIMESTAMP" "Invalid timestamp format", nonce_cache)
      | some timestamp =>
        if (now - timestamp).natAbs > 300 then
          (.sigErr "TIMESTAMP_OUT_OF_RANGE"
            "Request timestamp outside valid window", nonce_cache)
        else if (List.lookup nonce nonce_cache).isSome then
          (.sigErr "NONCE_REUSED" "Request ID already used", nonce_cache)
        else
          let cache2 := (nonce, now) :: nonce_cache
          let body_hash := sha256hex body
          let expected := hmac_sha256 webhook_secret
            (signed_message timestamp method path body_hash)
          if sig = "sha256=" ++ expected then (.sigOk, cache2)
          else
            (.sigErr "INVALID_SIGNATURE" "Signature verification failed",
              cache2)

/-- The JSON payload assembled by `send_callback`. -/
structure CallbackPayload where
  job_id : String
  status : String
  request_id : String
  created_at : Int
  finished_at : Option Int
  timestamp : Int
  results_count : Option Nat
  download_url : Option String
  error : Option JobError
deriving DecidableEq, Repr

/-- The payload `send_callback` builds from the job record at time `now`:
base fields, plus the result count and optional download url on
completion, or the stored error on failure. -/
def build_callback_payload (now : Int) (job_id : String) (status : String)
    (job : Job) : CallbackPayload :=
  let base : CallbackPayload :=
    { job_id := job_id
      status := status
      request_id := job.request_id
      created_at := job.created_at
      finished_at := job.finished_at
      timestamp := now
      results_count := none
      download_url := none
      error := none }
  if status = "completed" then
    { base with
        results_count := some (job.results.getD []).length
        download_url := job.download_url }
  else if status = "failed" then
    { base with error := some (job.error.getD { error_code := "", message := "" }) }
  else base

/-- JSON string literal (the strings in scope need no escaping). -/
def jsonString (s : String) : String := "\"" ++ s ++ "\""

/-- JSON rendering of an optional integer, `null` when absent. -/
def jsonOptInt : Option Int → String
  | none => "null"
  | some n => toString n

/-- JSON rendering of the nested error dict (its two keys are already in
sorted order, so the sorted and insertion-order dumps agree). -/
def jsonError (e : JobError) : String :=
  "\x7b" ++ jsonString "error_code" ++ ": " ++ jsonString e.error_code
    ++ ", " ++ jsonString "message" ++ ": " ++ jsonString e.message ++ "\x7d"

/-- The key/rendered-value pairs of the callback payload, in the insertion
order of the source dict. -/
def callbackPairs (p : CallbackPayload) : List (String × String) :=
  [("job_id", jsonString p.job_id),
   ("status", jsonString p.status),
   ("request_id", jsonString p.request_id),
   ("created_at", toString p.created_at),
   ("finished_at", jsonOptInt p.finished_at),
   ("timestamp", toString p.timestamp)]
  ++ (match p.results_count with
      | some n => [("results_count", toString n)]
      | none => [])
  ++ (match p.download_url with
      | some u => [("download_url", jsonString u)]
      | none => [])
  ++ (match p.error with
      | some e => [("error", jsonError e)]
      | none => [])

/-- Code-point lexicographic order on character lists, the order in which
`sort_keys=True` arranges dict keys. -/
def charListLe : List Char → List Char → Bool
  | [], _ => true
  | _ :: _, [] => false
  | c :: cs, d :: ds =>
    if c.toNat < d.toNat then true
    else if d.toNat < c.toNat then false
    else charListLe cs ds

/-- Lexicographic string order on code points. -/
def strLe (s t : String) : Bool := charListLe s.toList t.toList

/-- Insertion of a key/value pair into a key-sorted pair list. -/
def insertSorted (kv : String × String) :
    List (String × String) → List (String × String)
  | [] => [kv]
  | x :: xs =>
    if strLe kv.1 x.1 then kv :: x :: xs else x :: insertSorted kv xs

/-- Stable sort of a pair list by key, as `json.dumps(.., sort_keys=True)`
orders a dict. -/
def sortByKey : List (String × String) → List (String × String)
  | [] => []
  | x :: xs => insertSorted x (sortByKey xs)

/-- Rendering of a pair list as a JSON object with the separators
`json.dumps` uses by default. -/
def renderJsonObj (pairs : List (String × String)) : String :=
  "\x7b" ++ String.intercalate ", "
    (pairs.map (fun kv => jsonString kv.1 ++ ": " ++ kv.2)) ++ "\x7d"

/-- The string `send_callback` signs:
`json.dumps(payload, sort_keys=True)`. -/
def callback_signed_body (p : CallbackPayload) : String :=
  renderJsonObj (sortByKey (callbackPairs p))

/-- The body bytes actually delivered by `requests.post(.., json=payload)`:
`json.dumps(payload)` in dict insertion order. -/
def callback_delivered_body (p : CallbackPayload) : String :=
  renderJsonObj (callbackPairs p)

/-- The outbound webhook request `send_callback` issues for a job: the
delivered JSON body and the `X-Signature`/`X-Timestamp` headers. -/
structure CallbackRequest where
  body : String
  x_signature : String
  x_timestamp : String
deriving DecidableEq, Repr

/-- `send_callback` from main.py, up to the network call: assemble the
payload, sign the sorted-keys JSON dump with HMAC-SHA256, deliver the
default JSON dump with the signature and timestamp headers. -/
def send_callback_request (hmac_sha256 : String → String → String)
    (webhook_secret : String) (now : Int) (job_id : String)
    (status : String) (job : Job) : CallbackRequest :=
  let p := build_callback_payload now job_id status job
  { body := callback_delivered_body p
    x_signature := "sha256=" ++ hmac_sha256 webhook_secret (callback_signed_body p)
    x_timestamp := toString now }

/-- The status transitions the code can actually perform: the worker path
`queued → processing → completed | failed`, progress updates that keep the
status, and the lazy expiry that a TTL-expired read applies to a job in
any state. -/
def statusTransOk : JobStatus → JobStatus → Bool
  | .queued, .processing => true
  | .processing, .completed => true
  | .processing, .failed => true
  | _, .expired => true
  | a, b => a == b

/-- A job record with every field empty, used as lookup default in the
concrete test fixtures below. -/
def defaultJob : Job :=
  { id := ""
    type := ""
    status := .queued
    progress := 0
    data := none
    callback_url := none
    created_at := 0
    started_at := none
    finished_at := none
    ttl_h := 0
    results := none
    error := none
    request_id := ""
    idempotency_key := none
    download_url := none }

/-- The record a `create_job` call stored under the id it returned. -/
def jobOf (o : CreateOutcome) : Job :=
  (List.lookup o.job_id o.store).getD defaultJob

/-- Stand-in for an engine that fails on every item. -/
def noEngine : String → Option EngineResult := fun _ => none

/-- Stand-in for an engine that succeeds on every item with one colour. -/
def oneColorEngine : String → Option EngineResult :=
  fun _ => some { raw_palette := [[1, 2, 3]], social_image := none }

/-- Stand-in ETag fingerprint used in the concrete fixtures. -/
def constEtag : StatusResponse → String := fun _ => "E"

/-- Identity stand-in for the external sha256 hex digest; it is injective,
which is the only property of the digest the proofs use. -/
def idHash : String → String := fun s => s

/-- Stand-in for the external HMAC primitive that returns the message
unchanged; for a fixed key it is injective. -/
def idMac : String → String → String := fun _ m => m

/-- A url-batch creation: one url, default ttl, no callback. -/
def sampleUrlCreate : CreateOutcome :=
  create_job 0 "job_1" "rid" "url_batch" (.urlList ["http://h/a"]) none 24
    none []

/-- The stored record of the sample url-batch job. -/
def sampleUrlJob : Job := jobOf sampleUrlCreate

/-- The worker trace of the sample job when its single url succeeds. -/
def c1trace : List Job :=
  process_job_trace 1 2 sampleUrlJob (Except.error "unused") noEngine
    oneColorEngine

/-- The third state of that trace: the last progress update. -/
def c1state : Job := (c1trace.get? 2).getD defaultJob

/-- The sample job after completing with an empty result list. -/
def sampleCompletedJob : Job :=
  completedState 2 (processingState 1 sampleUrlJob) []

/-- Server state after one creation request with idempotency key "key1"
and raw body "b1" against an empty server. -/
def c3st1 : ServerState :=
  (create_job_endpoint idHash 0 "j1" "r" (some "key1") "b1"
    (.urlsReq ["u"] none 24) { idem := [], jobs := [], submitted := [] }).2

/-- First of two concurrent identical creation requests. -/
def c4ctx1 : ReqCtx :=
  { key := "k1", body_data := "B", new_id := "job_a", request_id := "r1",
    req := .zipReq "z" none 24 }

/-- Second of two concurrent identical creation requests: same key and
body, its own fresh job id. -/
def c4ctx2 : ReqCtx :=
  { key := "k1", body_data := "B", new_id := "job_b", request_id := "r2",
    req := .zipReq "z" none 24 }

/-- Both requests poised at their idempotency check over an empty server. -/
def c4start : TwoReqState :=
  { pc1 := .atCheck, pc2 := .atCheck,
    shared := { idem := [], jobs := [], submitted := [] } }

/-- The interleaving in which both requests pass the idempotency check
before either stores its key. -/
def c4racy : TwoReqState :=
  runSchedule idHash 0 c4ctx1 c4ctx2 [false, true, false, false, true, true]
    c4start

/-- The serialised execution: the first request finishes before the second
starts. -/
def c4serial : TwoReqState :=
  runSchedule idHash 0 c4ctx1 c4ctx2 [false, false, false, true, true, true]
    c4start

/-- A zip-batch creation used by the fixtures. -/
def sampleZipCreate : CreateOutcome :=
  create_job 0 "job_2" "rid" "zip_batch" (.zipData "zz") none 24 none []

/-- The stored record of the sample zip-batch job. -/
def sampleZipJob : Job := jobOf sampleZipCreate

/-- The payload of the completion webhook for the sample completed job,
sent at time 50. -/
def c6payload : CallbackPayload :=
  build_callback_payload 50 "job_1" "completed" sampleCompletedJob

/-- The webhook request `send_callback` issues for the sample completed
job, with the stand-in MAC. -/
def c6request : CallbackRequest :=
  send_callback_request idMac "sec" 50 "job_1" "completed" sampleCompletedJob

/-! Shared helper lemmas. -/

theorem getLastD_append_singleton {α : Type} (l : List α) (a d : α) :
    (l ++ [a]).getLastD d = a := by
  induction l generalizing d with
  | nil => rfl
  | cons x xs ih =>
    simp only [List.cons_append, List.getLastD_cons]
    exact ih x

theorem data_append (s t : String) : (s ++ t).data = s.data ++ t.data := by
  cases s
  cases t
  rfl

theorem lookup_updateJob_self (jid : String) (job' : Job)
    (jobs : List (String × Job)) (job : Job)
    (h : List.lookup jid jobs = some job) :
    List.lookup jid (updateJob jid job' jobs) = some job' := by
  induction jobs with
  | nil => simp [List.lookup] at h
  | cons p ps ih =>
    obtain ⟨k, v⟩ := p
    by_cases hp : k = jid
    · subst hp
      have hmap : updateJob k job' ((k, v) :: ps)
          = (k, job') :: (ps.map (fun q => if q.1 = k then (q.1, job') else q)) := by
        unfold updateJob
        rw [List.map_cons]
        congr 1
        exact if_pos rfl
      rw [hmap]
      simp [List.lookup]
    · have hne : (jid == k) = false := by
        simp only [beq_eq_false_iff_ne, ne_eq]
        exact fun hc => hp hc.symm
      have hmap : updateJob jid job' ((k, v) :: ps)
          = (k, v) :: updateJob jid job' ps := by
        unfold updateJob
        rw [List.map_cons]
        congr 1
        exact if_neg hp
      rw [hmap]
      simp only [List.lookup, hne] at h ⊢
      exact ih h

theorem statusTransOk_refl (s : JobStatus) : statusTransOk s s = true := by
  cases s <;> rfl

theorem statusTransOk_expired (s : JobStatus) :
    statusTransOk s .expired = true := by
  cases s <;> rfl

theorem forall₂_trans_self (jobs : List (String × Job)) :
    List.Forall₂
      (fun p q : String × Job =>
        p.1 = q.1 ∧ statusTransOk p.2.status q.2.status = true)
      jobs jobs := by
  rw [List.forall₂_same]
  intro x _
  exact ⟨rfl, statusTransOk_refl _⟩

theorem forall₂_trans_updateJob (jid : String) (job : Job)
    (jobs : List (String × Job)) :
    List.Forall₂
      (fun p q : String × Job =>
        p.1 = q.1 ∧ statusTransOk p.2.status q.2.status = true)
      jobs (updateJob jid (expireJobRecord job) jobs) := by
  unfold updateJob
  rw [List.forall₂_map_right_iff, List.forall₂_same]
  intro x _
  by_cases hx : x.1 = jid
  · rw [if_pos hx]
    exact ⟨rfl, statusTransOk_expired _⟩
  · rw [if_neg hx]
    exact ⟨rfl, statusTransOk_refl _⟩

theorem mem_progressStates_status {jobP s : Job} {n : Nat}
    (h : s ∈ progressStates jobP n) : s.status = jobP.status := by
  simp only [progressStates, List.mem_map, List.mem_range] at h
  obtain ⟨i, _, rfl⟩ := h
  rfl

theorem mem_progressStates_eq {jobP s : Job} {n : Nat}
    (h : s ∈ progressStates jobP n) :
    ∃ i, s = { jobP with progress := progressPct (i + 1) n } := by
  simp only [progressStates, List.mem_map, List.mem_range] at h
  obtain ⟨i, _, rfl⟩ := h
  exact ⟨i, rfl⟩

theorem chain_processing (x0 : Job) (L : List Job) (last : Job)
    (h0 : x0.status = .processing)
    (hL : ∀ x ∈ L, x.status = JobStatus.processing)
    (hl : statusTransOk JobStatus.processing last.status = true) :
    List.Chain' (fun a b : Job => statusTransOk a.status b.status = true)
      (x0 :: (L ++ [last])) := by
  induction L generalizing x0 with
  | nil =>
    simp only [List.nil_append, List.chain'_cons, List.chain'_singleton,
      and_true]
    rw [h0]
    exact hl
  | cons y ys ih =>
    have hy : y.status = JobStatus.processing := hL y (by simp)
    simp only [List.cons_append, List.chain'_cons]
    constructor
    · rw [h0, hy]
      rfl
    · exact ih y hy (fun x hx => hL x (by simp [hx]))

theorem getLastD_cons_cons_append {α : Type} (x y a d : α) (l : List α) :
    (x :: y :: (l ++ [a])).getLastD d = a := by
  have h : x :: y :: (l ++ [a]) = (x :: y :: l) ++ [a] := by simp
  rw [h, getLastD_append_singleton]

theorem process_zip_file_ok_nonempty
    (entries : Except String (List String))
    (processEntry : String → Option EngineResult)
    (rs : List ItemResult)
    (h : process_zip_file entries processEntry = .ok rs) : rs ≠ [] := by
  unfold process_zip_file at h
  cases entries with
  | error e => simp at h
  | ok names =>
    simp only at h
    split at h
    · simp at h
    · split at h
      · simp at h
      · split at h
        · simp at h
        · rename_i hlen
          injection h with h
          subst h
          intro hnil
          rw [hnil] at hlen
          simp at hlen

theorem c1case_queued {s : Job} (h1 : s.status = JobStatus.queued)
    (h2 : s.progress = 0) :
    (s.status = JobStatus.completed → s.progress = 100)
    ∧ (s.progress = 100 →
        s.status = JobStatus.completed ∨ s.status = JobStatus.processing) :=
  ⟨fun h => absurd (h1.symm.trans h) (by decide),
    fun h => absurd (h2.symm.trans h) (by decide)⟩

theorem c1case_processing {s : Job}
    (h1 : s.status = JobStatus.processing) :
    (s.status = JobStatus.completed → s.progress = 100)
    ∧ (s.progress = 100 →
        s.status = JobStatus.completed ∨ s.status = JobStatus.processing) :=
  ⟨fun h => absurd (h1.symm.trans h) (by decide), fun _ => Or.inr h1⟩

theorem c1case_failed {s : Job} (h1 : s.status = JobStatus.failed)
    (h2 : s.progress = 0) :
    (s.status = JobStatus.completed → s.progress = 100)
    ∧ (s.progress = 100 →
        s.status = JobStatus.completed ∨ s.status = JobStatus.processing) :=
  ⟨fun h => absurd (h1.symm.trans h) (by decide),
    fun h => absurd (h2.symm.trans h) (by decide)⟩

theorem c1case_completed {s : Job} (h1 : s.status = JobStatus.completed)
    (h2 : s.progress = 100) :
    (s.status = JobStatus.completed → s.progress = 100)
    ∧ (s.progress = 100 →
        s.status = JobStatus.completed ∨ s.status = JobStatus.processing) :=
  ⟨fun _ => h2, fun _ => Or.inl h1⟩

/-! Claim C1. -/

/-- C1 is false as stated: after the last item of a url batch, the
progress loop writes progress 100 while the status is still `processing`,
and a GET during that window returns a body with status "processing" and
progress 100. -/
theorem C1_progress100_while_processing_observed :
    c1trace.get? 2 = some c1state
    ∧ c1state.status = JobStatus.processing
    ∧ c1state.progress = 100
    ∧ (get_job_status constEtag 3 none "job_1" [("job_1", c1state)]).1.status_code = 200
    ∧ (get_job_status constEtag 3 none "job_1" [("job_1", c1state)]).1.body
        = RespBody.statusBody (build_status_response 3 "job_1" c1state)
    ∧ (build_status_response 3 "job_1" c1state).status = "processing"
    ∧ (build_status_response 3 "job_1" c1state).progress = some 100 := by
  decide

/-- C1 (amended): for a job created queued with progress 0, every state in
the worker trace satisfies: status `completed` implies progress 100, and
progress 100 implies the status is `completed` or still `processing` (the
latter occurs after the final item's progress update, before the terminal
transition). -/
theorem C1_amended_completed_iff_progress
    (t1 t2 : Int) (job0 : Job) (entries : Except String (List String))
    (processEntry fetchProcess : String → Option EngineResult)
    (hq : job0.status = JobStatus.queued) (hp : job0.progress = 0) :
    ∀ s ∈ process_job_trace t1 t2 job0 entries processEntry fetchProcess,
      (s.status = JobStatus.completed → s.progress = 100)
      ∧ (s.progress = 100 →
          s.status = JobStatus.completed ∨ s.status = JobStatus.processing) := by
  intro s hs
  simp only [process_job_trace] at hs
  split at hs
  · split at hs
    · split at hs
      · simp only [List.mem_cons, List.mem_append, List.mem_singleton,
          List.not_mem_nil, or_false] at hs
        rcases hs with rfl | rfl | hs | rfl
        · exact c1case_queued hq hp
        · exact c1case_processing rfl
        · obtain ⟨i, rfl⟩ := mem_progressStates_eq hs
          exact c1case_processing rfl
        · exact c1case_completed rfl rfl
      · simp only [List.mem_cons, List.mem_singleton, List.not_mem_nil,
          or_false] at hs
        rcases hs with rfl | rfl | rfl
        · exact c1case_queued hq hp
        · exact c1case_processing rfl
        · exact c1case_failed rfl hp
    · simp only [List.mem_cons, List.mem_singleton, List.not_mem_nil,
        or_false] at hs
      rcases hs with rfl | rfl | rfl
      · exact c1case_queued hq hp
      · exact c1case_processing rfl
      · exact c1case_failed rfl hp
  · split at hs
    · split at hs
      · simp only [List.mem_cons, List.mem_append, List.mem_singleton,
          List.not_mem_nil, or_false] at hs
        rcases hs with rfl | rfl | hs | rfl
        · exact c1case_queued hq hp
        · exact c1case_processing rfl
        · obtain ⟨i, rfl⟩ := mem_progressStates_eq hs
          exact c1case_processing rfl
        · exact c1case_completed rfl rfl
      · simp only [List.mem_cons, List.mem_singleton, List.not_mem_nil,
          or_false] at hs
        rcases hs with rfl | rfl | rfl
        · exact c1case_queued hq hp
        · exact c1case_processing rfl
        · exact c1case_failed rfl hp
    · simp only [List.mem_cons, List.mem_singleton, List.not_mem_nil,
        or_false] at hs
      rcases hs with rfl | rfl | rfl
      · exact c1case_queued hq hp
      · exact c1case_processing rfl
      · exact c1case_completed rfl rfl

/-- Concrete instance of the amended C1 statement at the sample trace. -/
theorem C1_amended_witness :
    (c1state.status = JobStatus.completed → c1state.progress = 100)
    ∧ (c1state.progress = 100 →
        c1state.status = JobStatus.completed
        ∨ c1state.status = JobStatus.processing) :=
  C1_amended_completed_iff_progress 1 2 sampleUrlJob (Except.error "unused")
    noEngine oneColorEngine (by decide) (by decide) c1state (by decide)

/-! Claim C2. -/

/-- C2 is false as stated for url batches: a url batch in which every
item was attempted and none succeeded still completes, with an empty
result list, instead of failing. -/
theorem C2_url_batch_zero_successes_completes :
    (process_job_outcome 1 2 sampleUrlJob (Except.error "unused") noEngine
        noEngine).status = JobStatus.completed
    ∧ (process_job_outcome 1 2 sampleUrlJob (Except.error "unused") noEngine
        noEngine).results = some [] := by
  decide

/-- C2 (amended): a zip batch completes exactly when the archive yields at
least one processed image, and otherwise fails with PROCESSING_ERROR —
in particular when the archive has no processable entry or every entry
fails; a url batch always completes, with individually failed items
omitted from the results, even when zero items succeeded. -/
theorem C2_amended_batch_terminal_outcomes
    (t1 t2 : Int) (job0 : Job) (entries : Except String (List String))
    (processEntry fetchProcess : String → Option EngineResult) :
    (∀ z rs, job0.type = "zip_batch" → job0.data = some (JobData.zipData z) →
      process_zip_file entries processEntry = Except.ok rs →
      (process_job_outcome t1 t2 job0 entries processEntry fetchProcess).status
          = JobStatus.completed
      ∧ (process_job_outcome t1 t2 job0 entries processEntry fetchProcess).results
          = some rs
      ∧ rs ≠ [])
    ∧ (∀ z e, job0.type = "zip_batch" → job0.data = some (JobData.zipData z) →
      process_zip_file entries processEntry = Except.error e →
      (process_job_outcome t1 t2 job0 entries processEntry fetchProcess).status
          = JobStatus.failed
      ∧ (process_job_outcome t1 t2 job0 entries processEntry fetchProcess).error
          = some { error_code := "PROCESSING_ERROR", message := e })
    ∧ (∀ names, entries = Except.ok names →
      names.filter isZipImageFile = [] →
      process_zip_file entries processEntry
        = Except.error "No valid images found in ZIP")
    ∧ (∀ names, entries = Except.ok names →
      (names.filter isZipImageFile).length ≤ 50 →
      names.filter isZipImageFile ≠ [] →
      (∀ n, processEntry n = none) →
      process_zip_file entries processEntry
        = Except.error "No images could be processed from ZIP")
    ∧ (∀ urls, job0.type = "url_batch" →
      job0.data = some (JobData.urlList urls) →
      (process_job_outcome t1 t2 job0 entries processEntry fetchProcess).status
          = JobStatus.completed
      ∧ (process_job_outcome t1 t2 job0 entries processEntry fetchProcess).results
          = some (urlResults fetchProcess urls)) := by
  refine ⟨?_, ?_, ?_, ?_, ?_⟩
  · intro z rs hty hdata hok
    have htr : process_job_trace t1 t2 job0 entries processEntry fetchProcess
        = job0 :: processingState t1 job0 ::
          (progressStates (processingState t1 job0) rs.length
            ++ [completedState t2 (processingState t1 job0) rs]) := by
      simp only [process_job_trace, hty, hdata, hok, if_pos]
    rw [process_job_outcome, htr, getLastD_cons_cons_append]
    exact ⟨rfl, rfl, process_zip_file_ok_nonempty entries processEntry rs hok⟩
  · intro z e hty hdata herr
    have htr : process_job_trace t1 t2 job0 entries processEntry fetchProcess
        = [job0, processingState t1 job0,
           failedState t2 (processingState t1 job0) e] := by
      simp only [process_job_trace, hty, hdata, herr, if_pos]
    rw [process_job_outcome, htr]
    exact ⟨rfl, rfl⟩
  · intro names hentries hfilter
    rw [hentries]
    simp [process_zip_file, hfilter]
  · intro names hentries hlen hne hfail
    rw [hentries]
    have hlen' : ¬ (names.filter isZipImageFile).length > 50 := by omega
    have hne' : ¬ (names.filter isZipImageFile).length = 0 := by
      simpa [List.length_eq_zero] using hne
    have hmap : (names.filter isZipImageFile).filterMap
        (fun n => (processEntry n).map (fun r =>
          ({ filename := n
             palette := normalizePalette r.raw_palette
             social_image := r.social_image } : ItemResult))) = [] := by
      rw [List.filterMap_eq_nil_iff]
      intro n _
      rw [hfail n]
      rfl
    simp only [process_zip_file, if_neg hlen', if_neg hne', hmap]
    rfl
  · intro urls hty hdata
    have hty' : ¬ job0.type = "zip_batch" := by
      rw [hty]
      decide
    have htr : process_job_trace t1 t2 job0 entries processEntry fetchProcess
        = job0 :: processingState t1 job0 ::
          (progressStates (processingState t1 job0) urls.length
            ++ [completedState t2 (processingState t1 job0)
                  (urlResults fetchProcess urls)]) := by
      simp only [process_job_trace]
      rw [if_neg hty', if_pos hty, hdata]
    rw [process_job_outcome, htr, getLastD_cons_cons_append]
    exact ⟨rfl, rfl⟩

/-- Concrete instance of the amended C2 statement: a failing zip batch and
an all-successes url batch. -/
theorem C2_amended_witness :
    ((process_job_outcome 1 2 sampleZipJob (Except.ok ["a.txt"]) noEngine
        noEngine).status = JobStatus.failed
    ∧ (process_job_outcome 1 2 sampleZipJob (Except.ok ["a.txt"]) noEngine
        noEngine).error
        = some { error_code := "PROCESSING_ERROR", message := "No valid images found in ZIP" })
    ∧ ((process_job_outcome 1 2 sampleUrlJob (Except.error "unused") noEngine
        oneColorEngine).status = JobStatus.completed
    ∧ (process_job_outcome 1 2 sampleUrlJob (Except.error "unused") noEngine
        oneColorEngine).results
        = some (urlResults oneColorEngine ["http://h/a"])) := by
  have hz := C2_amended_batch_terminal_outcomes 1 2 sampleZipJob
    (Except.ok ["a.txt"]) noEngine noEngine
  have herr := hz.2.2.1 ["a.txt"] rfl (by decide)
  refine ⟨hz.2.1 "zz" "No valid images found in ZIP" (by decide) (by decide) herr, ?_⟩
  exact (C2_amended_batch_terminal_outcomes 1 2 sampleUrlJob
    (Except.error "unused") noEngine oneColorEngine).2.2.2.2 ["http://h/a"]
    (by decide) (by decide)

/-! Claim C3. -/

theorem accepted_ledger_entry (sha256hex : String → String) (now : Int)
    (new_id rid k b : String) (hk : ¬ k = "") (req : ParsedReq)
    (st0 st1 : ServerState) (j s : String) (e : Int)
    (h : create_job_endpoint sha256hex now new_id rid (some k) b req st0
      = (CreateResp.accepted j s e, st1)) :
    List.lookup k st1.idem = some (j, sha256hex b) := by
  have hkp : keyPresent (some k) = true := by simp [keyPresent, hk]
  cases hl : List.lookup k st0.idem with
  | some p =>
    obtain ⟨cid, ch⟩ := p
    by_cases hch : ch = sha256hex b
    · have hchk : check_idempotency sha256hex (some k) b st0.idem
          = (some cid, none) := by
        simp [check_idempotency, hk, hl, hch]
      simp [create_job_endpoint, hkp, hchk] at h
      obtain ⟨⟨rfl, _, _⟩, rfl⟩ := h
      rw [hl, hch]
    · have hchk : check_idempotency sha256hex (some k) b st0.idem
          = (none, some "IDEMPOTENCY_VIOLATION") := by
        simp [check_idempotency, hk, hl, hch]
      simp [create_job_endpoint, hkp, hchk] at h
  | none =>
    have hchk : check_idempotency sha256hex (some k) b st0.idem
        = (none, none) := by
      simp [check_idempotency, hk, hl]
    cases req with
    | noInput => simp [create_job_endpoint, hkp, hchk] at h
    | invalidInput => simp [create_job_endpoint, hkp, hchk] at h
    | urlsReq urls cb ttl =>
      by_cases hu : urls.length = 0
      · simp [create_job_endpoint, hkp, hchk, hu] at h
      · simp [create_job_endpoint, hkp, hchk, hu] at h
        obtain ⟨⟨rfl, _, _⟩, hst⟩ := h
        rw [← hst]
        simp [store_idempotency, hk, List.lookup]
    | zipReq z cb ttl =>
      simp [create_job_endpoint, hkp, hchk] at h
      obtain ⟨⟨rfl, _, _⟩, hst⟩ := h
      rw [← hst]
      simp [store_idempotency, hk, List.lookup]

/-- C3: two sequential POST /jobs requests with the same (nonempty)
idempotency key, where the first is accepted with job id j1: a second
request with a byte-identical body is answered 202 with the same j1 and
leaves the whole server state unchanged (no job created); a second request
with a different body is answered 409 IDEMPOTENCY_VIOLATION and also
leaves the state unchanged, assuming the body digest is collision-free on
the two bodies. -/
theorem C3_idempotent_creation
    (sha256hex : String → String) (hinj : Function.Injective sha256hex)
    (now1 now2 : Int) (id1 id2 rid1 rid2 k b1 b2 : String) (hk : ¬ k = "")
    (req1 req2 : ParsedReq) (st0 st1 : ServerState) (j1 s1 : String)
    (e1 : Int)
    (h1 : create_job_endpoint sha256hex now1 id1 rid1 (some k) b1 req1 st0
      = (CreateResp.accepted j1 s1 e1, st1)) :
    (b2 = b1 →
      create_job_endpoint sha256hex now2 id2 rid2 (some k) b2 req2 st1
        = (CreateResp.accepted j1 (job_status_label st1.jobs j1) 60, st1))
    ∧ (¬ b2 = b1 →
      create_job_endpoint sha256hex now2 id2 rid2 (some k) b2 req2 st1
        = (CreateResp.rejected 409 "IDEMPOTENCY_VIOLATION", st1)) := by
  have hkp : keyPresent (some k) = true := by simp [keyPresent, hk]
  have hl := accepted_ledger_entry sha256hex now1 id1 rid1 k b1 hk req1 st0
    st1 j1 s1 e1 h1
  constructor
  · intro hb
    subst hb
    have hchk : check_idempotency sha256hex (some k) b2 st1.idem
        = (some j1, none) := by
      simp [check_idempotency, hk, hl]
    simp [create_job_endpoint, hkp, hchk]
  · intro hb
    have hne : ¬ sha256hex b1 = sha256hex b2 :=
      fun hcon => hb (hinj hcon).symm
    have hchk : check_idempotency sha256hex (some k) b2 st1.idem
        = (none, some "IDEMPOTENCY_VIOLATION") := by
      simp [check_idempotency, hk, hl, hne]
    simp [create_job_endpoint, hkp, hchk]

/-- Concrete instance of C3: a replayed identical request returns the
first job id with nothing created, and a conflicting reuse is rejected. -/
theorem C3_idempotent_creation_witness :
    (create_job_endpoint idHash 1 "j2" "r2" (some "key1") "b1"
        (.urlsReq ["u"] none 24) c3st1
      = (CreateResp.accepted "j1" (job_status_label c3st1.jobs "j1") 60, c3st1))
    ∧ (create_job_endpoint idHash 1 "j2" "r2" (some "key1") "b2"
        (.urlsReq ["u"] none 24) c3st1
      = (CreateResp.rejected 409 "IDEMPOTENCY_VIOLATION", c3st1)) := by
  have hinj : Function.Injective idHash := fun a b h => h
  have h1 : create_job_endpoint idHash 0 "j1" "r" (some "key1") "b1"
      (.urlsReq ["u"] none 24) { idem := [], jobs := [], submitted := [] }
      = (CreateResp.accepted "j1" "queued" 10, c3st1) := by decide
  constructor
  · exact (C3_idempotent_creation idHash hinj 0 1 "j1" "j2" "r" "r2" "key1"
      "b1" "b1" (by decide) (.urlsReq ["u"] none 24) (.urlsReq ["u"] none 24)
      { idem := [], jobs := [], submitted := [] } c3st1 "j1" "queued" 10
      h1).1 rfl
  · exact (C3_idempotent_creation idHash hinj 0 1 "j1" "j2" "r" "r2" "key1"
      "b1" "b2" (by decide) (.urlsReq ["u"] none 24) (.urlsReq ["u"] none 24)
      { idem := [], jobs := [], submitted := [] } c3st1 "j1" "queued" 10
      h1).2 (by decide)

/-! Claim C4. -/

/-- C4 fails on the code: the ledger lock is released between
`check_idempotency` and `store_idempotency`, so in the interleaving where
both requests run their check before either stores the fresh key, both
requests are accepted with distinct job ids and two jobs are created and
submitted; only the serialised execution deduplicates (second request
answered with the first job id, one job total). -/
theorem C4_racy_interleaving_creates_two_jobs :
    c4racy.pc1 = .finished (.accepted "job_a" "queued" 120)
    ∧ c4racy.pc2 = .finished (.accepted "job_b" "queued" 120)
    ∧ c4racy.shared.jobs.length = 2
    ∧ c4racy.shared.submitted = ["job_a", "job_b"]
    ∧ c4serial.pc1 = .finished (.accepted "job_a" "queued" 120)
    ∧ c4serial.pc2 = .finished (.accepted "job_a" "queued" 60)
    ∧ c4serial.shared.jobs.length = 1
    ∧ c4serial.shared.submitted = ["job_a"] := by
  decide

/-! Claim C5. -/

/-- C5 is false as stated: a request that fails only the signature check
still records its nonce (the insert happens before verification), and a
later correctly-signed request with that nonce is then rejected as
NONCE_REUSED. -/
theorem C5_signature_mismatch_burns_nonce :
    validate_request_signature idHash idMac "sec" 10 (some "10")
        (some "bad") "n1" "POST" "/jobs" "B" []
      = (.sigErr "INVALID_SIGNATURE" "Signature verification failed",
          [("n1", 10)])
    ∧ (validate_request_signature idHash idMac "sec" 10 (some "10")
        (some ("sha256="
          ++ idMac "sec" (signed_message 10 "POST" "/jobs" (idHash "B"))))
        "n1" "POST" "/jobs" "B" [("n1", 10)]).1
      = .sigErr "NONCE_REUSED" "Request ID already used" := by
  decide

/-- C5 (amended): rejections for missing headers, unparseable timestamp,
timestamp out of range and nonce reuse leave the nonce store unchanged,
and a success records the nonce before returning Ok; but a
signature-mismatch rejection also records the nonce (the insert precedes
verification), so after it any later request bearing that nonce — however
well-formed — is rejected as NONCE_REUSED. -/
theorem C5_amended_nonce_recording
    (sha256hex : String → String) (hmac_sha256 : String → String → String)
    (secret : String) (now : Int) (ts sig : Option String)
    (nonce method path body : String) (cache : List (String × Int)) :
    (ts = none →
      validate_request_signature sha256hex hmac_sha256 secret now ts sig
          nonce method path body cache
        = (.sigErr "MISSING_SIGNATURE" "Missing authentication headers",
            cache))
    ∧ (sig = none →
      validate_request_signature sha256hex hmac_sha256 secret now ts sig
          nonce method path body cache
        = (.sigErr "MISSING_SIGNATURE" "Missing authentication headers",
            cache))
    ∧ (∀ ts_str sig_str, ts = some ts_str → sig = some sig_str →
      ¬ ts_str = "" → ¬ sig_str = "" → strToInt? ts_str = none →
      validate_request_signature sha256hex hmac_sha256 secret now ts sig
          nonce method path body cache
        = (.sigErr "INVALID_TIMESTAMP" "Invalid timestamp format", cache))
    ∧ (∀ ts_str sig_str t, ts = some ts_str → sig = some sig_str →
      ¬ ts_str = "" → ¬ sig_str = "" → strToInt? ts_str = some t →
      (now - t).natAbs > 300 →
      validate_request_signature sha256hex hmac_sha256 secret now ts sig
          nonce method path body cache
        = (.sigErr "TIMESTAMP_OUT_OF_RANGE"
            "Request timestamp outside valid window", cache))
    ∧ (∀ ts_str sig_str t t0, ts = some ts_str → sig = some sig_str →
      ¬ ts_str = "" → ¬ sig_str = "" → strToInt? ts_str = some t →
      ¬ (now - t).natAbs > 300 → List.lookup nonce cache = some t0 →
      validate_request_signature sha256hex hmac_sha256 secret now ts sig
          nonce method path body cache
        = (.sigErr "NONCE_REUSED" "Request ID already used", cache))
    ∧ (∀ ts_str sig_str t, ts = some ts_str → sig = some sig_str →
      ¬ ts_str = "" → ¬ sig_str = "" → strToInt? ts_str = some t →
      ¬ (now - t).natAbs > 300 → List.lookup nonce cache = none →
      ¬ sig_str = "sha256=" ++ hmac_sha256 secret
        (signed_message t method path (sha256hex body)) →
      validate_request_signature sha256hex hmac_sha256 secret now ts sig
          nonce method path body cache
        = (.sigErr "INVALID_SIGNATURE" "Signature verification failed",
            (nonce, now) :: cache))
    ∧ (∀ ts_str sig_str t, ts = some ts_str → sig = some sig_str →
      ¬ ts_str = "" → ¬ sig_str = "" → strToInt? ts_str = some t →
      ¬ (now - t).natAbs > 300 → List.lookup nonce cache = none →
      sig_str = "sha256=" ++ hmac_sha256 secret
        (signed_message t method path (sha256hex body)) →
      validate_request_signature sha256hex hmac_sha256 secret now ts sig
          nonce method path body cache
        = (.sigOk, (nonce, now) :: cache))
    ∧ (∀ ts_str sig_str t now2 ts2 sig2 t2 method2 path2 body2,
      ts = some ts_str → sig = some sig_str →
      ¬ ts_str = "" → ¬ sig_str = "" → strToInt? ts_str = some t →
      ¬ (now - t).natAbs > 300 → List.lookup nonce cache = none →
      ¬ ts2 = "" → ¬ sig2 = "" → strToInt? ts2 = some t2 →
      ¬ (now2 - t2).natAbs > 300 →
      (validate_request_signature sha256hex hmac_sha256 secret now2
          (some ts2) (some sig2) nonce method2 path2 body2
          (validate_request_signature sha256hex hmac_sha256 secret now ts
            sig nonce method path body cache).2).1
        = .sigErr "NONCE_REUSED" "Request ID already used") := by
  refine ⟨?_, ?_, ?_, ?_, ?_, ?_, ?_, ?_⟩
  · intro h
    subst h
    rcases sig with _ | sig_str <;> rfl
  · intro h
    subst h
    rcases ts with _ | ts_str <;> rfl
  · intro ts_str sig_str hts hsig h1 h2 hparse
    subst hts
    subst hsig
    simp [validate_request_signature, h1, h2, hparse]
  · intro ts_str sig_str t hts hsig h1 h2 hparse hw
    subst hts
    subst hsig
    simp [validate_request_signature, h1, h2, hparse, hw]
  · intro ts_str sig_str t t0 hts hsig h1 h2 hparse hw hcache
    subst hts
    subst hsig
    simp [validate_request_signature, h1, h2, hparse, hw, hcache]
  · intro ts_str sig_str t hts hsig h1 h2 hparse hw hcache hcmp
    subst hts
    subst hsig
    simp [validate_request_signature, h1, h2, hparse, hw, hcache, hcmp]
  · intro ts_str sig_str t hts hsig h1 h2 hparse hw hcache hcmp
    subst hts
    subst hsig
    simp [validate_request_signature, h1, h2, hparse, hw, hcache, hcmp]
    exact hcmp ▸ h2
  · intro ts_str sig_str t now2 ts2 sig2 t2 method2 path2 body2 hts hsig h1
      h2 hparse hw hcache h1b h2b hparse2 hw2
    subst hts
    subst hsig
    have hsnd : (validate_request_signature sha256hex hmac_sha256 secret now
        (some ts_str) (some sig_str) nonce method path body cache).2
        = (nonce, now) :: cache := by
      by_cases hcmp : sig_str = "sha256=" ++ hmac_sha256 secret
        (signed_message t method path (sha256hex body))
      · simp [validate_request_signature, h1, h2, hparse, hw, hcache, hcmp]
        rw [if_neg (hcmp ▸ h2)]
      · simp [validate_request_signature, h1, h2, hparse, hw, hcache, hcmp]
    rw [hsnd]
    simp [validate_request_signature, h1b, h2b, hparse2, hw2, List.lookup]

/-- Concrete instance of the amended C5 statement: a mismatch records the
nonce and the follow-up request is refused as a replay. -/
theorem C5_amended_witness :
    validate_request_signature idHash idMac "sec" 10 (some "10")
        (some "bad") "n2" "POST" "/jobs" "B" []
      = (.sigErr "INVALID_SIGNATURE" "Signature verification failed",
          [("n2", 10)])
    ∧ (validate_request_signature idHash idMac "sec" 11 (some "11")
        (some "good") "n2" "POST" "/jobs" "B"
        (validate_request_signature idHash idMac "sec" 10 (some "10")
          (some "bad") "n2" "POST" "/jobs" "B" []).2).1
      = .sigErr "NONCE_REUSED" "Request ID already used" := by
  have h := C5_amended_nonce_recording idHash idMac "sec" 10 (some "10")
    (some "bad") "n2" "POST" "/jobs" "B" []
  constructor
  · exact h.2.2.2.2.2.1 "10" "bad" 10 rfl rfl (by decide) (by decide)
      (by decide) (by decide) (by decide) (by decide)
  · exact h.2.2.2.2.2.2.2 "10" "bad" 10 11 "11" "good" 11 "POST" "/jobs" "B"
      rfl rfl (by decide) (by decide) (by decide) (by decide) (by decide)
      (by decide) (by decide) (by decide) (by decide)

/-! Claim C6. -/

theorem str_data_inj {s t : String} (h : s.data = t.data) : s = t := by
  cases s
  cases t
  exact congrArg String.mk h

theorem str_ne_empty_of_data_cons {s : String} {c : Char} {cs : List Char}
    (h : s.data = c :: cs) : ¬ s = "" := by
  intro he
  rw [he] at h
  simp at h

theorem sha256_prefixed_ne_empty (s : String) : ¬ "sha256=" ++ s = "" := by
  intro h
  have h2 := congrArg String.data h
  rw [data_append] at h2
  simp at h2

theorem sha256_prefixed_inj {a b : String}
    (h : "sha256=" ++ a = "sha256=" ++ b) : a = b := by
  have h2 := congrArg String.data h
  rw [data_append, data_append] at h2
  exact str_data_inj (List.append_cancel_left h2)

theorem renderJsonObj_head (pairs : List (String × String)) :
    (renderJsonObj pairs).data.head? = some '{' := by
  have h : ("\x7b" : String).data = ['{'] := rfl
  simp [renderJsonObj, data_append, h]

theorem signed_message_head (t : Int) (method path bh : String)
    (c : Char) (cs : List Char) (h : (toString t).data = c :: cs) :
    (signed_message t method path bh).data.head? = some c := by
  simp [signed_message, data_append, h]

/-- C6 is false as stated: the signature `send_callback` attaches is the
MAC of the sorted-keys JSON dump of the payload, not of the
timestamp/method/path/body-digest message that `validate_request_signature`
verifies (the two strings differ — the delivered body bytes are not even
the signed bytes, since delivery uses the insertion-order dump), so a
receiver reusing the inbound verification routine rejects the delivered
notification with INVALID_SIGNATURE. -/
theorem C6_receiver_rejects_callback :
    (validate_request_signature idHash idMac "sec" 50
        (some c6request.x_timestamp) (some c6request.x_signature) "n1"
        "POST" "/cb" c6request.body []).1
      = .sigErr "INVALID_SIGNATURE" "Signature verification failed"
    ∧ ¬ c6request.body = callback_signed_body c6payload
    ∧ ¬ callback_signed_body c6payload
        = signed_message 50 "POST" "/cb" (idHash c6request.body) := by
  decide

/-- C6 (amended): for any MAC that is injective in its message (as an
ideal HMAC-SHA256 is collision-free), the message signed by
`send_callback` (the sorted-keys JSON dump, which starts with a brace)
differs from the canonical message `validate_request_signature`
reconstructs for the delivered request (which starts with the decimal
timestamp), so a receiver that replays the inbound verification routine
over the delivered body, timestamp and signature rejects the webhook with
INVALID_SIGNATURE. -/
theorem C6_amended_webhook_signature_scheme
    (sha256hex : String → String) (hmac_sha256 : String → String → String)
    (secret : String) (hinj : Function.Injective (hmac_sha256 secret))
    (now now2 : Int) (job_id status : String) (job : Job)
    (path nonce : String) (cache : List (String × Int))
    (c : Char) (cs : List Char)
    (hts : (toString now).data = c :: cs) (hc : ¬ c = '{')
    (hparse : strToInt? (toString now) = some now)
    (hw : ¬ (now2 - now).natAbs > 300)
    (hcache : List.lookup nonce cache = none) :
    (validate_request_signature sha256hex hmac_sha256 secret now2
        (some (send_callback_request hmac_sha256 secret now job_id status
          job).x_timestamp)
        (some (send_callback_request hmac_sha256 secret now job_id status
          job).x_signature)
        nonce "POST" path
        (send_callback_request hmac_sha256 secret now job_id status job).body
        cache).1
      = .sigErr "INVALID_SIGNATURE" "Signature verification failed"
    ∧ ¬ callback_signed_body (build_callback_payload now job_id status job)
        = signed_message now "POST" path
            (sha256hex (send_callback_request hmac_sha256 secret now job_id
              status job).body) := by
  have hmsg : ∀ bh : String,
      ¬ callback_signed_body (build_callback_payload now job_id status job)
        = signed_message now "POST" path bh := by
    intro bh he
    have h1 := renderJsonObj_head
      (sortByKey (callbackPairs (build_callback_payload now job_id status job)))
    rw [show callback_signed_body (build_callback_payload now job_id status job)
        = renderJsonObj (sortByKey (callbackPairs
            (build_callback_payload now job_id status job))) from rfl] at he
    rw [he] at h1
    rw [signed_message_head now "POST" path bh c cs hts] at h1
    exact hc (Option.some.injEq _ _ ▸ h1.symm ▸ rfl)
  have hneq : ¬ (send_callback_request hmac_sha256 secret now job_id status
      job).x_signature
      = "sha256=" ++ hmac_sha256 secret (signed_message now "POST" path
          (sha256hex (send_callback_request hmac_sha256 secret now job_id
            status job).body)) := by
    intro he
    have h2 := sha256_prefixed_inj he
    exact hmsg _ (hinj h2)
  have hts_ne : ¬ (toString now) = "" := str_ne_empty_of_data_cons hts
  have hsig_ne : ¬ (send_callback_request hmac_sha256 secret now job_id
      status job).x_signature = "" :=
    sha256_prefixed_ne_empty _
  constructor
  · show (validate_request_signature sha256hex hmac_sha256 secret now2
        (some (toString now))
        (some (send_callback_request hmac_sha256 secret now job_id status
          job).x_signature)
        nonce "POST" path
        (send_callback_request hmac_sha256 secret now job_id status job).body
        cache).1
      = .sigErr "INVALID_SIGNATURE" "Signature verification failed"
    simp [validate_request_signature, hts_ne, hsig_ne, hparse, hw, hcache,
      hneq]
  · exact hmsg _

/-- Concrete instance of the amended C6 statement at the sample webhook. -/
theorem C6_amended_witness :
    (validate_request_signature idHash idMac "sec" 50
        (some (send_callback_request idMac "sec" 50 "job_1" "completed"
          sampleCompletedJob).x_timestamp)
        (some (send_callback_request idMac "sec" 50 "job_1" "completed"
          sampleCompletedJob).x_signature)
        "n1" "POST" "/cb"
        (send_callback_request idMac "sec" 50 "job_1" "completed"
          sampleCompletedJob).body []).1
      = .sigErr "INVALID_SIGNATURE" "Signature verification failed"
    ∧ ¬ callback_signed_body (build_callback_payload 50 "job_1" "completed"
          sampleCompletedJob)
        = signed_message 50 "POST" "/cb"
            (idHash (send_callback_request idMac "sec" 50 "job_1" "completed"
              sampleCompletedJob).body) :=
  C6_amended_webhook_signature_scheme idHash idMac "sec"
    (fun a b h => h) 50 50 "job_1" "completed" sampleCompletedJob "/cb" "n1"
    [] '5' ['0'] (by decide) (by decide) (by decide) (by decide) rfl

/-! Claim C7. -/

/-- C7 is false as stated: a job whose status is already terminal
(`completed`) still transitions to `expired` when a status read past its
TTL observes it — the code's lazy expiry ignores the current status. -/
theorem C7_completed_job_expires_on_read :
    sampleCompletedJob.status = JobStatus.completed
    ∧ List.lookup "job_1" (get_job_status constEtag 999999 none "job_1"
        [("job_1", sampleCompletedJob)]).2
      = some (expireJobRecord sampleCompletedJob)
    ∧ (expireJobRecord sampleCompletedJob).status = JobStatus.expired := by
  decide

/-- C7 (amended): a job's status transitions only along
`queued → processing → completed | failed` in the worker, plus the lazy
transition to `expired` that a TTL-expired read applies from any state —
including `completed` and `failed`; only `expired` has no further
transitions (a later read leaves it `expired`). Part one: the worker trace
is a chain of allowed transitions. Part two: a status read rewrites each
stored job only to itself or along an allowed transition. -/
theorem C7_amended_transitions
    (t1 t2 : Int) (job0 : Job) (entries : Except String (List String))
    (processEntry fetchProcess : String → Option EngineResult)
    (etagOf : StatusResponse → String) (now : Int) (inm : Option String)
    (jid : String) (jobs : List (String × Job))
    (hq : job0.status = JobStatus.queued) :
    List.Chain' (fun a b : Job => statusTransOk a.status b.status = true)
      (process_job_trace t1 t2 job0 entries processEntry fetchProcess)
    ∧ List.Forall₂
        (fun p q : String × Job =>
          p.1 = q.1 ∧ statusTransOk p.2.status q.2.status = true)
        jobs (get_job_status etagOf now inm jid jobs).2 := by
  constructor
  · simp only [process_job_trace]
    split
    · split
      · split
        · rw [List.chain'_cons]
          constructor
          · rw [hq]
            rfl
          · exact chain_processing _ _ _ rfl
              (fun x hx => mem_progressStates_status hx) rfl
        · rw [List.chain'_cons]
          refine ⟨?_, ?_⟩
          · rw [hq]
            rfl
          · rw [List.chain'_cons]
            exact ⟨rfl, List.chain'_singleton _⟩
      · rw [List.chain'_cons]
        refine ⟨?_, ?_⟩
        · rw [hq]
          rfl
        · rw [List.chain'_cons]
          exact ⟨rfl, List.chain'_singleton _⟩
    · split
      · split
        · rw [List.chain'_cons]
          constructor
          · rw [hq]
            rfl
          · exact chain_processing _ _ _ rfl
              (fun x hx => mem_progressStates_status hx) rfl
        · rw [List.chain'_cons]
          refine ⟨?_, ?_⟩
          · rw [hq]
            rfl
          · rw [List.chain'_cons]
            exact ⟨rfl, List.chain'_singleton _⟩
      · rw [List.chain'_cons]
        refine ⟨?_, ?_⟩
        · rw [hq]
          rfl
        · rw [List.chain'_cons]
          exact ⟨rfl, List.chain'_singleton _⟩
  · cases hl : List.lookup jid jobs with
    | none =>
      simp only [get_job_status, hl]
      exact forall₂_trans_self jobs
    | some job =>
      simp only [get_job_status, hl]
      split
      · exact forall₂_trans_updateJob jid job jobs
      · split
        · exact forall₂_trans_self jobs
        · exact forall₂_trans_self jobs

/-- Concrete instance of the amended C7 statement: the sample worker trace
and an expiring read of a completed job. -/
theorem C7_amended_witness :
    List.Chain' (fun a b : Job => statusTransOk a.status b.status = true)
      c1trace
    ∧ List.Forall₂
        (fun p q : String × Job =>
          p.1 = q.1 ∧ statusTransOk p.2.status q.2.status = true)
        [("job_1", sampleCompletedJob)]
        (get_job_status constEtag 999999 none "job_1"
          [("job_1", sampleCompletedJob)]).2 :=
  C7_amended_transitions 1 2 sampleUrlJob (Except.error "unused") noEngine
    oneColorEngine constEtag 999999 none "job_1"
    [("job_1", sampleCompletedJob)] (by decide)

/-! Claim C8. -/

/-- C8 is false as stated: the TTL-expired read does answer 404
EXPIRED_JOB and clears `results` and `download_url`, but the job's payload
(`data`) is NOT cleared — it still holds the url list after expiry. -/
theorem C8_payload_retained_on_expiry :
    (get_job_status constEtag 999999 none "job_1"
        [("job_1", sampleCompletedJob)]).1
      = make_error 404 "EXPIRED_JOB" "Job results have expired"
    ∧ List.lookup "job_1" (get_job_status constEtag 999999 none "job_1"
        [("job_1", sampleCompletedJob)]).2
      = some (expireJobRecord sampleCompletedJob)
    ∧ (expireJobRecord sampleCompletedJob).results = none
    ∧ (expireJobRecord sampleCompletedJob).download_url = none
    ∧ (expireJobRecord sampleCompletedJob).data
        = some (JobData.urlList ["http://h/a"]) := by
  decide

/-- C8 (amended): a read strictly past `created_at + ttl_h*3600` answers
404 EXPIRED_JOB and marks the job expired, clearing `results` and
`download_url` — but retaining the payload (`data`); every later read also
answers 404 EXPIRED_JOB, so the results are no longer retrievable. -/
theorem C8_amended_expired_read
    (etagOf : StatusResponse → String) (now : Int) (inm : Option String)
    (jid : String) (jobs : List (String × Job)) (job : Job)
    (hl : List.lookup jid jobs = some job)
    (hexp : now > job.created_at + job.ttl_h * 3600) :
    (get_job_status etagOf now inm jid jobs).1
      = make_error 404 "EXPIRED_JOB" "Job results have expired"
    ∧ List.lookup jid (get_job_status etagOf now inm jid jobs).2
      = some (expireJobRecord job)
    ∧ (expireJobRecord job).results = none
    ∧ (expireJobRecord job).download_url = none
    ∧ (expireJobRecord job).data = job.data
    ∧ (∀ (etagOf2 : StatusResponse → String) (now2 : Int)
        (inm2 : Option String), now2 ≥ now →
      (get_job_status etagOf2 now2 inm2 jid
          (get_job_status etagOf now inm jid jobs).2).1
        = make_error 404 "EXPIRED_JOB" "Job results have expired") := by
  have hfst : get_job_status etagOf now inm jid jobs
      = (make_error 404 "EXPIRED_JOB" "Job results have expired",
         updateJob jid (expireJobRecord job) jobs) := by
    simp only [get_job_status, hl]
    rw [if_pos hexp]
  have hlook2 : List.lookup jid (get_job_status etagOf now inm jid jobs).2
      = some (expireJobRecord job) := by
    rw [hfst]
    exact lookup_updateJob_self jid (expireJobRecord job) jobs job hl
  refine ⟨by rw [hfst], hlook2, rfl, rfl, rfl, ?_⟩
  intro etagOf2 now2 inm2 hge
  have hexp2 : now2 > (expireJobRecord job).created_at
      + (expireJobRecord job).ttl_h * 3600 := by
    show now2 > job.created_at + job.ttl_h * 3600
    omega
  have hlook3 : List.lookup jid (updateJob jid (expireJobRecord job) jobs)
      = some (expireJobRecord job) :=
    lookup_updateJob_self jid (expireJobRecord job) jobs job hl
  rw [hfst]
  simp only [get_job_status, hlook3]
  rw [if_pos hexp2]

/-- Concrete instance of the amended C8 statement. -/
theorem C8_amended_witness :
    (get_job_status constEtag 100000 none "job_1"
        [("job_1", sampleCompletedJob)]).1
      = make_error 404 "EXPIRED_JOB" "Job results have expired"
    ∧ (get_job_status constEtag 100001 none "job_1"
        (get_job_status constEtag 100000 none "job_1"
          [("job_1", sampleCompletedJob)]).2).1
      = make_error 404 "EXPIRED_JOB" "Job results have expired" := by
  have h := C8_amended_expired_read constEtag 100000 none "job_1"
    [("job_1", sampleCompletedJob)] sampleCompletedJob (by decide) (by decide)
  exact ⟨h.1, h.2.2.2.2.2 constEtag 100001 none (by omega)⟩

/-! Claim C9. -/

/-- C9: for a known, non-expired job, a GET whose If-None-Match equals the
current (quoted) ETag is answered 304 with an empty body, the ETag, and
the Retry-After hint (2 while queued, 5 while processing, omitted once
terminal); a non-matching GET is answered 200 with the full body, the
ETag, the same hint and Cache-Control no-store. Neither read mutates the
job table. -/
theorem C9_conditional_get
    (etagOf : StatusResponse → String) (now : Int) (inm : Option String)
    (jid : String) (jobs : List (String × Job)) (job : Job)
    (hl : List.lookup jid jobs = some job)
    (hlive : ¬ now > job.created_at + job.ttl_h * 3600) :
    (inm = some ("\"" ++ etagOf (build_status_response now jid job) ++ "\"") →
      get_job_status etagOf now inm jid jobs
        = ({ status_code := 304, body := RespBody.emptyBody,
             etag := some ("\"" ++ etagOf (build_status_response now jid job)
               ++ "\""),
             retry_after := retryAfterHint job.status,
             cache_control := none }, jobs))
    ∧ (¬ inm = some ("\"" ++ etagOf (build_status_response now jid job)
        ++ "\"") →
      get_job_status etagOf now inm jid jobs
        = ({ status_code := 200,
             body := RespBody.statusBody (build_status_response now jid job),
             etag := some ("\"" ++ etagOf (build_status_response now jid job)
               ++ "\""),
             retry_after := retryAfterHint job.status,
             cache_control := some "no-store" }, jobs))
    ∧ retryAfterHint JobStatus.queued = some "2"
    ∧ retryAfterHint JobStatus.processing = some "5"
    ∧ (¬ job.status = JobStatus.queued → ¬ job.status = JobStatus.processing →
        retryAfterHint job.status = none) := by
  refine ⟨?_, ?_, rfl, rfl, ?_⟩
  · intro hm
    simp only [get_job_status, hl]
    rw [if_neg hlive, if_pos hm]
  · intro hm
    simp only [get_job_status, hl]
    rw [if_neg hlive, if_neg hm]
  · intro h1 h2
    cases hs : job.status with
    | queued => exact absurd hs h1
    | processing => exact absurd hs h2
    | completed => rfl
    | failed => rfl
    | expired => rfl

/-- Concrete instance of C9 at the freshly created (queued) sample job. -/
theorem C9_conditional_get_witness :
    get_job_status constEtag 5 (some "\"E\"") "job_1" sampleUrlCreate.store
      = ({ status_code := 304, body := RespBody.emptyBody,
           etag := some "\"E\"", retry_after := some "2",
           cache_control := none }, sampleUrlCreate.store)
    ∧ get_job_status constEtag 5 none "job_1" sampleUrlCreate.store
      = ({ status_code := 200,
           body := RespBody.statusBody
             (build_status_response 5 "job_1" sampleUrlJob),
           etag := some "\"E\"", retry_after := some "2",
           cache_control := some "no-store" }, sampleUrlCreate.store) := by
  have h := C9_conditional_get constEtag 5 (some "\"E\"") "job_1"
    sampleUrlCreate.store sampleUrlJob (by decide) (by decide)
  have h2 := C9_conditional_get constEtag 5 none "job_1"
    sampleUrlCreate.store sampleUrlJob (by decide) (by decide)
  constructor
  · exact (h.1 (by decide)).trans (by decide)
  · exact (h2.2.1 (by decide)).trans (by decide)

/-! Claim C10. -/

/-- C10: create_job clamps ttl_h only from above (min with 168) — with
ttl_h ≤ 0 the job is still inserted queued and submitted to the worker
pool, it keeps its nonpositive ttl_h, and every read at any time strictly
after creation answers 404 EXPIRED_JOB, since the expiry condition
now > created_at + ttl_h*3600 holds immediately. -/
theorem C10_nonpositive_ttl
    (now : Int) (new_id rid job_type : String) (d : JobData)
    (cb : Option String) (ttl : Int) (ik : Option String)
    (jobs : List (String × Job)) (httl : ttl ≤ 0) :
    (create_job now new_id rid job_type d cb ttl ik jobs).submitted
      = [(create_job now new_id rid job_type d cb ttl ik jobs).job_id]
    ∧ List.lookup (create_job now new_id rid job_type d cb ttl ik jobs).job_id
        (create_job now new_id rid job_type d cb ttl ik jobs).store
      = some (newJobRecord now new_id rid job_type d cb ttl ik)
    ∧ (newJobRecord now new_id rid job_type d cb ttl ik).status
        = JobStatus.queued
    ∧ (newJobRecord now new_id rid job_type d cb ttl ik).ttl_h = ttl
    ∧ (newJobRecord now new_id rid job_type d cb ttl ik).data = some d
    ∧ (∀ (t : Int) (etagOf : StatusResponse → String) (inm : Option String),
        t > now →
        (get_job_status etagOf t inm
            (create_job now new_id rid job_type d cb ttl ik jobs).job_id
            (create_job now new_id rid job_type d cb ttl ik jobs).store).1
          = make_error 404 "EXPIRED_JOB" "Job results have expired") := by
  have hmin : min ttl 168 = ttl := min_eq_left (by omega)
  have hlook : List.lookup
      (create_job now new_id rid job_type d cb ttl ik jobs).job_id
      (create_job now new_id rid job_type d cb ttl ik jobs).store
      = some (newJobRecord now new_id rid job_type d cb ttl ik) := by
    simp [create_job, List.lookup]
  refine ⟨rfl, hlook, rfl, ?_, rfl, ?_⟩
  · show min ttl 168 = ttl
    exact hmin
  · intro t etagOf inm ht
    have hexp : t > (newJobRecord now new_id rid job_type d cb ttl
        ik).created_at
        + (newJobRecord now new_id rid job_type d cb ttl ik).ttl_h * 3600 := by
      show t > now + min ttl 168 * 3600
      rw [hmin]
      omega
    simp only [get_job_status, hlook]
    rw [if_pos hexp]

/-- Concrete instance of C10 with ttl_h = 0: created, submitted, and
immediately expired on the next read. -/
theorem C10_nonpositive_ttl_witness :
    (create_job 0 "j0" "r0" "url_batch" (JobData.urlList ["u"]) none 0 none
      []).submitted = ["j0"]
    ∧ (get_job_status constEtag 1 none "j0"
        (create_job 0 "j0" "r0" "url_batch" (JobData.urlList ["u"]) none 0
          none []).store).1
      = make_error 404 "EXPIRED_JOB" "Job results have expired" := by
  have h := C10_nonpositive_ttl 0 "j0" "r0" "url_batch"
    (JobData.urlList ["u"]) none 0 none [] (by omega)
  exact ⟨h.1, h.2.2.2.2.2 1 constEtag none (by omega)⟩

end BrewChrome
